import Mathlib

/-!
Shallow embedding of the taina-backend Slack news bot (Go) in Lean 4.

Sources embedded:
- news.go: `NYTimes.TopStories` (error normalization and well-formedness
  filtering of upstream items), `SupportedSections`.
- bot handlers: `HandleSlashCommand`, `processCommand`, `handleTopRequest`,
  `handleHelpRequest`, `HandleHelpInteraction`.

Modelling conventions: command text is a `List Char` (Go slices bytes, but
the ASCII prefix "stories" makes byte and char slicing agree on the first 7
positions); HTTP and upstream effects are explicit data; the message posted
to Slack is a `Delivery` value; the goroutine spawned after the 200 ack is a
`SpawnedTask` value, and `runTask` is the asynchronous computation it runs.
Time formatting of `PublishedAt` is abstracted as an opaque string that is
passed through. Lowercasing is modelled per character.
-/

namespace Taina

/-- An article as rendered to Slack (news.go `Article`). -/
structure Article where
  title : String
  abstract : String
  url : String
  publishedAt : String
deriving DecidableEq, Repr

/-- An item as returned by the upstream nyttop client (title, abstract,
short URL, formatted publication date). -/
structure RawStory where
  title : String
  abstract : String
  shortURL : String
  publishedAt : String
deriving DecidableEq, Repr

/-- Errors of the upstream nyttop client: `nyttop.ErrInvalidSection` or any
other failure (network, parse, quota), carrying its message. -/
inductive UpstreamErr where
  | invalidSection
  | other (detail : String)
deriving DecidableEq, Repr

/-- Errors of the news gateway as seen by the bot: `ErrInvalidSection` from
news.go, or the upstream error passed through unchanged. -/
inductive NewsErr where
  | invalidSection
  | upstream (detail : String)
deriving DecidableEq, Repr

/-- Copying an upstream item into an `Article` (news.go, body of the loop in
`TopStories`). -/
def toArticle (a : RawStory) : Article :=
  { title := a.title, abstract := a.abstract, url := a.shortURL,
    publishedAt := a.publishedAt }

/-- news.go `NYTimes.TopStories`, given the upstream client response:
`nyttop.ErrInvalidSection` becomes `ErrInvalidSection`, any other error is
returned as-is; on success items missing a title or a link are skipped and
the rest are appended in order. -/
def nytTopStories (resp : Except UpstreamErr (List RawStory)) :
    Except NewsErr (List Article) :=
  match resp with
  | .error .invalidSection => .error .invalidSection
  | .error (.other d) => .error (.upstream d)
  | .ok stories =>
      .ok (stories.foldl
        (fun acc a =>
          if a.title == "" || a.shortURL == "" then acc
          else acc ++ [toArticle a]) [])

/-- news.go `SupportedSections`. -/
def supportedSections : List String :=
  ["home", "arts", "automobile", "books", "business", "fashion", "food",
   "health", "movies", "politics", "realestate", "science", "sports",
   "technology", "theater", "travel", "us", "world"]

/-- A select-menu option (Slack `OptionBlockObject`): display label and
internal value. -/
structure MenuOption where
  label : String
  value : String
deriving DecidableEq, Repr

/-- Slack Block Kit blocks used by the bot: header, mrkdwn section, divider,
and a section carrying a static-select accessory. -/
inductive Block where
  | headerBlock (text : String)
  | sectionBlock (text : String)
  | dividerBlock
  | selectBlock (text : String) (options : List MenuOption)
deriving DecidableEq, Repr

/-- Slack response visibility (`slack.ResponseTypeEphemeral` vs in-channel). -/
inductive ResponseType where
  | ephemeral
  | inChannel
deriving DecidableEq, Repr

/-- One `PostMessage` call: target, blocks, optional plain text, and
visibility. -/
structure Delivery where
  channelID : String
  responseURL : String
  blocks : List Block
  text : Option String
  responseType : ResponseType
deriving DecidableEq, Repr

/-- Generic error message of `handleTopRequest`. -/
def genericErrText : String :=
  "⚠️ Oops, something went wrong on our side. Try again later!"

/-- Help-pointer message of `handleTopRequest` for `ErrInvalidSection`. -/
def invalidSectionText : String :=
  "⚠️ That\x27s not a valid news section! Try requesting `/news help` to learn how to use this app!"

/-- The error-message selection in `handleTopRequest`: the generic text,
overridden for `ErrInvalidSection`. -/
def errText (e : NewsErr) : String :=
  match e with
  | .invalidSection => invalidSectionText
  | .upstream _ => genericErrText

/-- Header text of the top-stories message. -/
def topHeaderText : String := "Here are the top stories 🗞"

/-- The mrkdwn body of one story block:
`fmt.Sprintf("<%s|%s>\n%s", a.URL, a.Title, a.Abstract)`. -/
def storyText (a : Article) : String :=
  "<" ++ a.url ++ "|" ++ a.title ++ ">" ++ "\n" ++ a.abstract

/-- The block sequence built by `handleTopRequest` on success: a header,
then, appended per article in order, one section block and one divider. -/
def topStoriesBlocks (articles : List Article) : List Block :=
  articles.foldl
    (fun acc a => acc ++ [Block.sectionBlock (storyText a), Block.dividerBlock])
    [Block.headerBlock topHeaderText]

/-- Go `strings.Trim(s, " ")` on the front only: drop leading spaces. -/
def spaceTrimLeft (s : List Char) : List Char :=
  s.dropWhile (fun c => c = ' ')

/-- Go `strings.Trim(s, " ")`: drop leading and trailing space characters
(U+0020) only. -/
def spaceTrim (s : List Char) : List Char :=
  ((spaceTrimLeft s).reverse.dropWhile (fun c => c = ' ')).reverse

/-- Whitespace in the sense of the specification text (space, tab, newline,
carriage return). Used only to state the spec-side trimming. -/
def wsChar (c : Char) : Bool :=
  c = ' ' || c = '\t' || c = '\n' || c = '\r'

/-- Trimming surrounding whitespace, as the specification words it. This is
the spec-side trimmer, to be compared with the code-side `spaceTrim`. -/
def wsTrim (s : List Char) : List Char :=
  ((s.dropWhile wsChar).reverse.dropWhile wsChar).reverse

/-- Go `strings.HasPrefix s p`. -/
def hasPref (s p : List Char) : Bool :=
  s.take p.length == p

/-- The literal "stories". -/
def storiesLit : List Char := ['s', 't', 'o', 'r', 'i', 'e', 's']

/-- The default section. -/
def homeSection : List Char := ['h', 'o', 'm', 'e']

/-- The section resolution at the top of `handleTopRequest`: trim spaces,
default an empty result to "home". -/
def resolveSection (params : List Char) : List Char :=
  let p := spaceTrim params
  if p.length = 0 then homeSection else p

/-- The abstract news source seen by the bot (`NewsSource.TopStories` with
the top-3 count fixed by the caller). -/
def Fetch : Type := List Char → Except NewsErr (List Article)

/-- The tail of `handleTopRequest` after the fetch: on error, post the
selected error text ephemerally with no blocks; on success, post the
rendered blocks ephemerally. -/
def deliverTop (channelID responseURL : String)
    (res : Except NewsErr (List Article)) : Delivery :=
  match res with
  | .error e =>
      { channelID := channelID, responseURL := responseURL, blocks := [],
        text := some (errText e), responseType := .ephemeral }
  | .ok articles =>
      { channelID := channelID, responseURL := responseURL,
        blocks := topStoriesBlocks articles, text := none,
        responseType := .ephemeral }

/-- `handleTopRequest`: resolve the section, fetch, and deliver. -/
def handleTopRequest (fetch : Fetch) (channelID responseURL : String)
    (params : List Char) : Delivery :=
  deliverTop channelID responseURL (fetch (resolveSection params))

/-- The three options of the help menu (`handleHelpRequest`). -/
def helpOptions : List MenuOption :=
  [{ label := "General", value := "home" },
   { label := "Arts", value := "arts" },
   { label := "Politics", value := "politics" }]

/-- The block sequence of the help message. -/
def helpBlocks : List Block :=
  [Block.headerBlock "How to use", Block.dividerBlock,
   Block.selectBlock "Choose a news section" helpOptions]

/-- `handleHelpRequest`: post the help menu ephemerally. -/
def handleHelpRequest (channelID responseURL : String) : Delivery :=
  { channelID := channelID, responseURL := responseURL, blocks := helpBlocks,
    text := none, responseType := .ephemeral }

/-- The routing decision of `processCommand` (the `switch` statement): a
text starting with "stories" goes to the top-stories handler with the
remainder `params[7:]`; everything else goes to help. -/
inductive Route where
  | topStories (rest : List Char)
  | help
deriving DecidableEq, Repr

/-- The `switch` in `processCommand`. -/
def routeOf (params : List Char) : Route :=
  if hasPref params storiesLit then .topStories (params.drop 7) else .help

/-- `processCommand`: route, then run the corresponding handler. -/
def processCommand (fetch : Fetch) (channelID responseURL : String)
    (params : List Char) : Delivery :=
  match routeOf params with
  | .topStories rest => handleTopRequest fetch channelID responseURL rest
  | .help => handleHelpRequest channelID responseURL

/-- The immediate HTTP acknowledgment: status code and (always empty)
response body — none of the handlers ever writes a body. -/
structure HttpAck where
  status : Nat
  body : String
deriving DecidableEq, Repr

/-- A parsed slash-command request (the fields of `slack.SlashCommand` the
bot reads). -/
structure SlashCommandReq where
  token : String
  command : String
  channelID : String
  responseURL : String
  text : String
deriving DecidableEq, Repr

/-- One block action of an interaction callback; the bot reads only
`SelectedOption.Value`. -/
structure BlockAction where
  selectedValue : String
deriving DecidableEq, Repr

/-- A deserialized interaction callback (the fields the bot reads: token,
container channel, response URL, and the block actions). -/
structure InteractionCallback where
  token : String
  channelID : String
  responseURL : String
  blockActions : List BlockAction
deriving DecidableEq, Repr

/-- The inbound body of `POST /receive/help`: form parsing may fail, the
payload JSON may fail to unmarshal, or an `InteractionCallback` results. -/
inductive HelpReq where
  | badForm
  | badPayload
  | parsed (i : InteractionCallback)
deriving DecidableEq, Repr

/-- The goroutine spawned after the 200 ack: either
`processCommand` on the lowercased slash-command text, or
`handleTopRequest` on a selected option value. -/
inductive SpawnedTask where
  | slashCmd (channelID responseURL : String) (loweredText : List Char)
  | topSection (channelID responseURL : String) (value : List Char)
deriving DecidableEq, Repr

/-- Go `strings.ToLower` on the command text (per character). -/
def lowerText (s : String) : List Char :=
  s.toList.map Char.toLower

/-- `HandleSlashCommand`: a parse failure gives 500; a token different from
the configured secret gives 401; a command other than "/news" gives 400;
otherwise 200 is written and `processCommand` is spawned on the lowercased
text. The second component is the spawned task, if any. -/
def handleSlashCommand (secret : String)
    (req : Except Unit SlashCommandReq) : HttpAck × Option SpawnedTask :=
  match req with
  | .error _ => (⟨500, ""⟩, none)
  | .ok s =>
      if s.token ≠ secret then (⟨401, ""⟩, none)
      else if s.command ≠ "/news" then (⟨400, ""⟩, none)
      else (⟨200, ""⟩,
            some (.slashCmd s.channelID s.responseURL (lowerText s.text)))

/-- `HandleHelpInteraction`: form or payload failure gives 400; a token
different from the secret gives 401; an action count other than one gives
400; otherwise 200 is written and `handleTopRequest` is spawned on the
selected option value of the single action. -/
def handleHelpInteraction (secret : String) (req : HelpReq) :
    HttpAck × Option SpawnedTask :=
  match req with
  | .badForm => (⟨400, ""⟩, none)
  | .badPayload => (⟨400, ""⟩, none)
  | .parsed i =>
      if i.token ≠ secret then (⟨401, ""⟩, none)
      else
        match i.blockActions with
        | [a] => (⟨200, ""⟩,
                  some (.topSection i.channelID i.responseURL
                          a.selectedValue.toList))
        | _ => (⟨400, ""⟩, none)

/-- The asynchronous computation a spawned task performs, yielding the one
message it delivers. -/
def runTask (fetch : Fetch) : SpawnedTask → Delivery
  | .slashCmd ch url t => processCommand fetch ch url t
  | .topSection ch url v => handleTopRequest fetch ch url v

/-- The option values offered by a block sequence (the values a user can
select from its static-select menus). -/
def optionValues (bs : List Block) : List String :=
  bs.foldl
    (fun acc b =>
      match b with
      | .selectBlock _ opts => acc ++ opts.map MenuOption.value
      | _ => acc) []

/-- A probe news source whose result records the section it was asked for
in the title of a single article; used to observe which section a run
fetches. -/
def probe : Fetch :=
  fun s => .ok [{ title := String.mk s, abstract := "", url := "u",
                  publishedAt := "" }]

/-- The per-article block pair of the top-stories render, sequenced in
article order (reference shape for the foldl in `topStoriesBlocks`). -/
def storySeq : List Article → List Block
  | [] => []
  | a :: tl => Block.sectionBlock (storyText a) :: Block.dividerBlock :: storySeq tl

/-- The article list of a successful gateway result ([] on error). -/
def okArticles : Except NewsErr (List Article) → List Article
  | .ok arts => arts
  | .error _ => []

theorem topBlocks_foldl_eq (arts : List Article) (acc : List Block) :
    arts.foldl
      (fun acc a => acc ++ [Block.sectionBlock (storyText a), Block.dividerBlock])
      acc = acc ++ storySeq arts := by
  induction arts generalizing acc with
  | nil => simp [storySeq]
  | cons a tl ih => simp [storySeq, ih]

theorem storySeq_length (arts : List Article) :
    (storySeq arts).length = 2 * arts.length := by
  induction arts with
  | nil => simp [storySeq]
  | cons a tl ih => simp [storySeq, ih]; ring

theorem nytFold_eq (stories : List RawStory) (acc : List Article) :
    stories.foldl
      (fun acc a =>
        if a.title == "" || a.shortURL == "" then acc else acc ++ [toArticle a])
      acc =
      acc ++ (stories.filter
        (fun a => !(a.title == "" || a.shortURL == ""))).map toArticle := by
  induction stories generalizing acc with
  | nil => simp
  | cons a tl ih =>
      rw [List.foldl_cons, List.filter_cons]
      by_cases h : (a.title == "" || a.shortURL == "") = true
      · rw [if_pos h, ih, if_neg]
        simp [h]
      · rw [if_neg h, ih, if_pos (by simp [h] : (!(a.title == "" || a.shortURL == "")) = true),
          List.map_cons]
        simp

theorem spaceTrim_of_all (s : List Char)
    (h : s.all (fun c => c = ' ') = true) : spaceTrim s = [] := by
  have h1 : s.dropWhile (fun c => c = ' ') = [] := by
    rw [List.dropWhile_eq_nil_iff]
    exact List.all_eq_true.mp h
  simp [spaceTrim, spaceTrimLeft, h1]

theorem deliverTop_ephemeral (ch url : String)
    (res : Except NewsErr (List Article)) :
    (deliverTop ch url res).responseType = .ephemeral := by
  cases res <;> rfl

theorem errText_spec (e : NewsErr) :
    errText e = invalidSectionText ↔ e = .invalidSection := by
  cases e with
  | invalidSection => simp [errText]
  | upstream d =>
      simp only [errText]
      constructor
      · intro h
        exact absurd h (by decide)
      · intro h
        cases h

/-- C1: after lowercasing, a text with the "stories" prefix routes to
TopStories; the claim that the section then used is the remainder with
surrounding WHITESPACE trimmed fails on the code, which trims only space
characters: on the text "stories&#9;arts" (tab after the prefix) the
whitespace-trimmed remainder is "arts" but the run fetches "\tarts". -/
theorem command_routing_cex :
    hasPref ("stories\tarts".toList) storiesLit = true ∧
    wsTrim (("stories\tarts".toList).drop 7) = "arts".toList ∧
    resolveSection (("stories\tarts".toList).drop 7) = "\tarts".toList ∧
    "\tarts".toList ≠ "arts".toList ∧
    processCommand probe "c" "r" ("stories\tarts".toList) =
      deliverTop "c" "r" (probe ("\tarts".toList)) ∧
    processCommand probe "c" "r" ("stories\tarts".toList) ≠
      deliverTop "c" "r" (probe ("arts".toList)) := by decide

/-- C1 (amended): after lowercasing, a text starting with "stories" routes
to TopStories with remainder `text[7:]`, and when the space-trimmed
remainder is nonempty the fetch receives exactly the remainder with
surrounding SPACE characters (U+0020) trimmed; every other text routes to
Help and delivers the help menu. -/
theorem command_routing (fetch : Fetch) (ch url : String) (t : List Char) :
    (hasPref t storiesLit = true →
      routeOf t = Route.topStories (t.drop 7) ∧
      (spaceTrim (t.drop 7) ≠ [] →
        processCommand fetch ch url t =
          deliverTop ch url (fetch (spaceTrim (t.drop 7))))) ∧
    (hasPref t storiesLit = false →
      routeOf t = Route.help ∧
      processCommand fetch ch url t = handleHelpRequest ch url) := by
  constructor
  · intro h1
    constructor
    · simp [routeOf, h1]
    · intro h2
      have hlen : ¬((spaceTrim (t.drop 7)).length = 0) := by
        simpa [List.length_eq_zero] using h2
      simp [processCommand, routeOf, h1, handleTopRequest, resolveSection, hlen]
  · intro h
    constructor
    · simp [routeOf, h]
    · simp [processCommand, routeOf, h]

/-- Witness for C1: the run on "stories arts" fetches the trimmed remainder
"arts"; the empty text routes to Help. -/
theorem command_routing_witness :
    (routeOf ("stories arts".toList) =
        Route.topStories (("stories arts".toList).drop 7) ∧
      processCommand probe "c" "r" ("stories arts".toList) =
        deliverTop "c" "r" (probe (spaceTrim (("stories arts".toList).drop 7)))) ∧
    (routeOf ("".toList) = Route.help ∧
      processCommand probe "c" "r" ("".toList) = handleHelpRequest "c" "r") := by
  refine ⟨?_, (command_routing probe "c" "r" ("".toList)).2 (by decide)⟩
  have h := (command_routing probe "c" "r" ("stories arts".toList)).1 (by decide)
  exact ⟨h.1, h.2 (by decide)⟩

/-- C2: the claim that a whitespace-only remainder defaults to "home" fails
on the code, which recognizes only space characters as empty: on the text
"stories&#9;" (tab remainder) the fetch receives the tab, not "home". -/
theorem home_default_cex :
    hasPref ("stories\t".toList) storiesLit = true ∧
    (("stories\t".toList).drop 7).all wsChar = true ∧
    ("stories\t".toList).drop 7 ≠ [] ∧
    processCommand probe "c" "r" ("stories\t".toList) =
      deliverTop "c" "r" (probe ['\t']) ∧
    deliverTop "c" "r" (probe ['\t']) ≠
      deliverTop "c" "r" (probe homeSection) := by decide

/-- C2 (amended): when the remainder after "stories" is empty or consists
only of space characters (U+0020), the fetch receives the section "home". -/
theorem home_default (fetch : Fetch) (ch url : String) (t : List Char)
    (hpre : hasPref t storiesLit = true)
    (hsp : (t.drop 7).all (fun c => c = ' ') = true) :
    processCommand fetch ch url t = deliverTop ch url (fetch homeSection) := by
  have htrim : spaceTrim (t.drop 7) = [] := spaceTrim_of_all _ hsp
  simp [processCommand, routeOf, hpre, handleTopRequest, resolveSection, htrim]

/-- Witness for C2 at the text "stories&#32;&#32;". -/
theorem home_default_witness :
    processCommand probe "c" "r" ("stories  ".toList) =
      deliverTop "c" "r" (probe homeSection) :=
  home_default probe "c" "r" ("stories  ".toList) (by decide) (by decide)

/-- C3: for every upstream response, `NYTimes.TopStories` returns exactly
the upstream items that have both a title and a link, mapped to articles in
upstream order (so malformed items are excluded and order is preserved),
and every returned article has a nonempty title and url. -/
theorem topStories_filters_malformed (stories : List RawStory) :
    nytTopStories (.ok stories) =
      .ok ((stories.filter
        (fun a => !(a.title == "" || a.shortURL == ""))).map toArticle) ∧
    (okArticles (nytTopStories (.ok stories))).all
      (fun a => !(a.title == "") && !(a.url == "")) = true := by
  have h := nytFold_eq stories []
  constructor
  · simp only [nytTopStories, h, List.nil_append]
  · simp only [nytTopStories, h, List.nil_append, okArticles]
    rw [List.all_eq_true]
    intro a ha
    obtain ⟨b, hb, rfl⟩ := List.mem_map.mp ha
    have hcond := (List.mem_filter.mp hb).2
    simp only [Bool.not_eq_true', Bool.or_eq_false_iff] at hcond
    simp [toArticle, hcond.1, hcond.2]

/-- C4: the top-stories render is exactly one header block followed by, per
article in order, one content block and one divider, so `1 + 2 * k` blocks
for `k` articles; the empty list renders the header alone. -/
theorem render_block_shape (arts : List Article) :
    topStoriesBlocks arts = Block.headerBlock topHeaderText :: storySeq arts ∧
    (topStoriesBlocks arts).length = 1 + 2 * arts.length ∧
    topStoriesBlocks [] = [Block.headerBlock topHeaderText] := by
  have h := topBlocks_foldl_eq arts [Block.headerBlock topHeaderText]
  refine ⟨?_, ?_, rfl⟩
  · simpa [topStoriesBlocks] using h
  · simp [topStoriesBlocks, h, storySeq_length]
    ring

/-- C5: when the fetch fails, no blocks are delivered, the delivered text
is the help-pointer message exactly when the error is `ErrInvalidSection`,
and any other error delivers the generic retry message; the message is
ephemeral. -/
theorem fetch_error_messages (e : NewsErr) (ch url : String)
    (params : List Char) :
    (handleTopRequest (fun _ => .error e) ch url params).blocks = [] ∧
    ((handleTopRequest (fun _ => .error e) ch url params).text =
        some invalidSectionText ↔ e = .invalidSection) ∧
    (e ≠ NewsErr.invalidSection →
      (handleTopRequest (fun _ => .error e) ch url params).text =
        some genericErrText) ∧
    (handleTopRequest (fun _ => .error e) ch url params).responseType =
      .ephemeral := by
  refine ⟨rfl, ?_, ?_, rfl⟩
  · simp only [handleTopRequest, deliverTop, Option.some.injEq]
    exact errText_spec e
  · intro hne
    cases e with
    | invalidSection => exact absurd rfl hne
    | upstream d => rfl

/-- Witness for C5 at a generic upstream error. -/
theorem fetch_error_messages_witness :
    (handleTopRequest (fun _ => .error (.upstream "quota")) "c" "r"
        homeSection).blocks = [] ∧
    (handleTopRequest (fun _ => .error (.upstream "quota")) "c" "r"
        homeSection).text = some genericErrText := by
  have h := fetch_error_messages (.upstream "quota") "c" "r" homeSection
  exact ⟨h.1, h.2.2.1 (by decide)⟩

/-- C6: the synchronous HTTP status of both endpoints: on `/receive`,
malformed body 500, bad token 401, foreign command 400, success 200 with
empty body (and the async task spawned); on `/receive/help`, malformed form
or payload 400, bad token 401, action count other than one 400, success 200
with empty body. -/
theorem http_status_contract (secret : String) (s : SlashCommandReq)
    (i : InteractionCallback) :
    (handleSlashCommand secret (.error ())).1 = ⟨500, ""⟩ ∧
    (s.token ≠ secret → (handleSlashCommand secret (.ok s)).1 = ⟨401, ""⟩) ∧
    (s.token = secret → s.command ≠ "/news" →
      (handleSlashCommand secret (.ok s)).1 = ⟨400, ""⟩) ∧
    (s.token = secret → s.command = "/news" →
      (handleSlashCommand secret (.ok s)).1 = ⟨200, ""⟩ ∧
      (handleSlashCommand secret (.ok s)).2 ≠ none) ∧
    (handleHelpInteraction secret .badForm).1 = ⟨400, ""⟩ ∧
    (handleHelpInteraction secret .badPayload).1 = ⟨400, ""⟩ ∧
    (i.token ≠ secret → (handleHelpInteraction secret (.parsed i)).1 = ⟨401, ""⟩) ∧
    (i.token = secret → i.blockActions.length ≠ 1 →
      (handleHelpInteraction secret (.parsed i)).1 = ⟨400, ""⟩) ∧
    (i.token = secret → i.blockActions.length = 1 →
      (handleHelpInteraction secret (.parsed i)).1 = ⟨200, ""⟩ ∧
      (handleHelpInteraction secret (.parsed i)).2 ≠ none) := by
  refine ⟨rfl, ?_, ?_, ?_, rfl, rfl, ?_, ?_, ?_⟩
  · intro h
    simp only [handleSlashCommand]
    rw [if_pos h]
  · intro h hc
    simp only [handleSlashCommand]
    rw [if_neg (fun hn => hn h), if_pos hc]
  · intro h hc
    simp only [handleSlashCommand]
    rw [if_neg (fun hn => hn h), if_neg (fun hn => hn hc)]
    exact ⟨rfl, by simp⟩
  · intro h
    simp only [handleHelpInteraction]
    rw [if_pos h]
  · intro h hlen
    simp only [handleHelpInteraction]
    rw [if_neg (fun hn => hn h)]
    rcases hb : i.blockActions with _ | ⟨a, _ | ⟨b, tl⟩⟩
    · rfl
    · exact absurd (by simp [hb]) hlen
    · rfl
  · intro h hlen
    obtain ⟨a, ha⟩ := List.length_eq_one.mp hlen
    simp only [handleHelpInteraction]
    rw [if_neg (fun hn => hn h), ha]
    exact ⟨rfl, by simp⟩

/-- Witness for C6, one concrete request per contract case. -/
theorem http_status_contract_witness :
    (handleSlashCommand "sec" (.ok ⟨"bad", "/news", "c", "r", "x"⟩)).1 = ⟨401, ""⟩ ∧
    (handleSlashCommand "sec" (.ok ⟨"sec", "/other", "c", "r", "x"⟩)).1 = ⟨400, ""⟩ ∧
    (handleSlashCommand "sec" (.ok ⟨"sec", "/news", "c", "r", "x"⟩)).1 = ⟨200, ""⟩ ∧
    (handleHelpInteraction "sec" (.parsed ⟨"bad", "c", "r", [⟨"arts"⟩]⟩)).1 = ⟨401, ""⟩ ∧
    (handleHelpInteraction "sec" (.parsed ⟨"sec", "c", "r", []⟩)).1 = ⟨400, ""⟩ ∧
    (handleHelpInteraction "sec" (.parsed ⟨"sec", "c", "r", [⟨"arts"⟩]⟩)).1 = ⟨200, ""⟩ := by
  refine ⟨?_, ?_, ?_, ?_, ?_, ?_⟩
  · exact (http_status_contract "sec" ⟨"bad", "/news", "c", "r", "x"⟩
      ⟨"bad", "c", "r", [⟨"arts"⟩]⟩).2.1 (by decide)
  · exact (http_status_contract "sec" ⟨"sec", "/other", "c", "r", "x"⟩
      ⟨"bad", "c", "r", [⟨"arts"⟩]⟩).2.2.1 (by decide) (by decide)
  · exact ((http_status_contract "sec" ⟨"sec", "/news", "c", "r", "x"⟩
      ⟨"bad", "c", "r", [⟨"arts"⟩]⟩).2.2.2.1 (by decide) (by decide)).1
  · exact (http_status_contract "sec" ⟨"sec", "/news", "c", "r", "x"⟩
      ⟨"bad", "c", "r", [⟨"arts"⟩]⟩).2.2.2.2.2.2.1 (by decide)
  · exact (http_status_contract "sec" ⟨"sec", "/news", "c", "r", "x"⟩
      ⟨"sec", "c", "r", []⟩).2.2.2.2.2.2.2.1 (by decide) (by decide)
  · exact ((http_status_contract "sec" ⟨"sec", "/news", "c", "r", "x"⟩
      ⟨"sec", "c", "r", [⟨"arts"⟩]⟩).2.2.2.2.2.2.2.2 (by decide) (by decide)).1

/-- C7: a request rejected before acknowledgment — bad token on either
endpoint, or an action count other than one — spawns no asynchronous task,
so no message is ever delivered for it. -/
theorem reject_spawns_nothing (secret : String) (s : SlashCommandReq)
    (i : InteractionCallback) (fetch : Fetch) :
    (s.token ≠ secret →
      (handleSlashCommand secret (.ok s)).2 = none ∧
      Option.map (runTask fetch) (handleSlashCommand secret (.ok s)).2 = none) ∧
    (i.token ≠ secret →
      (handleHelpInteraction secret (.parsed i)).2 = none ∧
      Option.map (runTask fetch)
        (handleHelpInteraction secret (.parsed i)).2 = none) ∧
    (i.blockActions.length ≠ 1 →
      (handleHelpInteraction secret (.parsed i)).2 = none ∧
      Option.map (runTask fetch)
        (handleHelpInteraction secret (.parsed i)).2 = none) := by
  refine ⟨?_, ?_, ?_⟩
  · intro h
    simp only [handleSlashCommand]
    rw [if_pos h]
    exact ⟨rfl, rfl⟩
  · intro h
    simp only [handleHelpInteraction]
    rw [if_pos h]
    exact ⟨rfl, rfl⟩
  · intro hlen
    simp only [handleHelpInteraction]
    by_cases h : i.token = secret
    · rw [if_neg (fun hn => hn h)]
      rcases hb : i.blockActions with _ | ⟨a, _ | ⟨b, tl⟩⟩
      · exact ⟨rfl, rfl⟩
      · exact absurd (by simp [hb]) hlen
      · exact ⟨rfl, rfl⟩
    · rw [if_pos h]
      exact ⟨rfl, rfl⟩

/-- Witness for C7 at a bad token and at a two-action callback. -/
theorem reject_spawns_nothing_witness :
    (handleSlashCommand "sec" (.ok ⟨"bad", "/news", "c", "r", "x"⟩)).2 = none ∧
    (handleHelpInteraction "sec" (.parsed ⟨"bad", "c", "r", [⟨"arts"⟩]⟩)).2 = none ∧
    (handleHelpInteraction "sec"
      (.parsed ⟨"sec", "c", "r", [⟨"arts"⟩, ⟨"home"⟩]⟩)).2 = none := by
  refine ⟨?_, ?_, ?_⟩
  · exact ((reject_spawns_nothing "sec" ⟨"bad", "/news", "c", "r", "x"⟩
      ⟨"bad", "c", "r", [⟨"arts"⟩]⟩ probe).1 (by decide)).1
  · exact ((reject_spawns_nothing "sec" ⟨"bad", "/news", "c", "r", "x"⟩
      ⟨"bad", "c", "r", [⟨"arts"⟩]⟩ probe).2.1 (by decide)).1
  · exact ((reject_spawns_nothing "sec" ⟨"bad", "/news", "c", "r", "x"⟩
      ⟨"sec", "c", "r", [⟨"arts"⟩, ⟨"home"⟩]⟩ probe).2.2 (by decide)).1

/-- C8: the asynchronous processing of an interactive selection with value
`v` is the same computation as the asynchronous processing of a slash
command whose text routes to TopStories with remainder `v` — both are
`handleTopRequest` on the section parameter. -/
theorem interactive_matches_text_path (fetch : Fetch) (ch url : String)
    (t v : List Char) (hpre : hasPref t storiesLit = true)
    (hrest : t.drop 7 = v) :
    runTask fetch (.topSection ch url v) = runTask fetch (.slashCmd ch url t) := by
  subst hrest
  simp [runTask, processCommand, routeOf, hpre]

/-- Witness for C8 on value "&#32;arts" against text "stories arts". -/
theorem interactive_matches_text_path_witness :
    runTask (fun _ => Except.ok []) (.topSection "c" "r" (" arts".toList)) =
      runTask (fun _ => Except.ok []) (.slashCmd "c" "r" ("stories arts".toList)) :=
  interactive_matches_text_path (fun _ => Except.ok []) "c" "r"
    ("stories arts".toList) (" arts".toList) (by decide) (by decide)

/-- C9: every message the system can deliver — from the slash-command path,
the top-stories handler, the help handler, or any spawned task — is posted
with ephemeral visibility. -/
theorem deliveries_always_ephemeral (fetch : Fetch) (ch url : String)
    (t v : List Char) :
    (processCommand fetch ch url t).responseType = .ephemeral ∧
    (handleTopRequest fetch ch url v).responseType = .ephemeral ∧
    (handleHelpRequest ch url).responseType = .ephemeral ∧
    ∀ task : SpawnedTask, (runTask fetch task).responseType = .ephemeral := by
  have hproc : ∀ (ch url : String) (t : List Char),
      (processCommand fetch ch url t).responseType = .ephemeral := by
    intro ch url t
    unfold processCommand
    cases routeOf t with
    | topStories rest => exact deliverTop_ephemeral ch url _
    | help => rfl
  refine ⟨hproc ch url t, deliverTop_ephemeral ch url _, rfl, ?_⟩
  intro task
  cases task with
  | slashCmd ch2 url2 t2 => exact hproc ch2 url2 t2
  | topSection ch2 url2 v2 => exact deliverTop_ephemeral ch2 url2 _

/-- C10: the values offered by the help menu are exactly "home", "arts",
"politics", each of which is in `SupportedSections()`, and the help
delivery carries exactly those blocks. -/
theorem help_menu_values_supported :
    optionValues helpBlocks = ["home", "arts", "politics"] ∧
    (optionValues helpBlocks).all
      (fun v => supportedSections.contains v) = true ∧
    (handleHelpRequest "c" "r").blocks = helpBlocks := by decide

end Taina
